import Mathlib

/-!
Shallow embedding of the Drift Skia bridge (skia_gl.cc / skia_vk.cc):
typeface resolution with its single-slot cache, GL wrapped-surface creation
with the ordered pixel-format fallback, Vulkan surface wrapping, flush and
resource purging.  External libraries (Skia, the system font manager, the
GL and Vulkan drivers) are modelled as oracles supplied in an environment
record; each bridge function is a pure function of that environment which
also records the external calls it makes, so that "no lookup is performed"
and "the call order is ..." are stateable properties.
-/

namespace DriftSkia

/-- Typefaces are opaque handles; we model them as naturals. -/
abbrev Typeface := Nat

/-- SkFontStyle::Slant (only the two values the bridge uses). -/
inductive Slant
  | upright
  | italic
deriving DecidableEq, Repr

/-- SkFontStyle: weight, width, slant. -/
structure FontStyle where
  weight : Int
  width : Int
  slant : Slant
deriving DecidableEq, Repr

/-- SkFontStyle::kNormal_Width. -/
def normalWidth : Int := 5

/-- std::clamp(v, lo, hi): lo if v < lo, hi if hi < v, else v. -/
def clampInt (v lo hi : Int) : Int :=
  if v < lo then lo else if hi < v then hi else v

/-- Normalisation of the family argument, from
`(family && family[0] != 0) ? family : ""`: a null or empty family
becomes the empty string. -/
def familyNameOf : Option String → String
  | some s => if s == "" then "" else s
  | none => ""

/-- The system font manager (SkFontMgr) as an oracle: matchFamilyStyle
takes a nullable family name. -/
structure FontManager where
  matchFamilyStyle : Option String → FontStyle → Option Typeface
  countFamilies : Int
  getFamilyName : Int → String

/-- Environment of resolve_typeface: the custom-typeface registry
(lookup_custom_typeface, an external collaborator) and the font-manager
singleton (`none` models get_font_manager returning null). -/
structure FontEnv where
  custom : Option String → Option Typeface
  manager : Option FontManager

/-- The function-local static single-slot cache of resolve_typeface. -/
structure TypefaceCache where
  family : String
  weight : Int
  style : Int
  typeface : Option Typeface
deriving DecidableEq, Repr

/-- The cache's initial state: family "", weight -1, style -1, null typeface. -/
def cache0 : TypefaceCache := ⟨"", -1, -1, none⟩

/-- The external lookups resolve_typeface can make, in call order. -/
inductive FontQuery
  | custom (family : Option String)
  | matchFamilyStyle (family : Option String) (style : FontStyle)
  | countFamilies
  | getFamilyName (index : Int)
deriving DecidableEq, Repr

/-- manager->matchFamilyStyle, guarded by the manager null check. -/
def mgrMatch (m : Option FontManager) (family : Option String) (fs : FontStyle) :
    Option Typeface :=
  match m with
  | some mgr => mgr.matchFamilyStyle family fs
  | none => none

/-- manager->countFamilies under the manager null check. -/
def mgrCount (m : Option FontManager) : Int :=
  match m with
  | some mgr => mgr.countFamilies
  | none => 0

/-- manager->getFamilyName under the manager null check. -/
def mgrFamilyName (m : Option FontManager) (i : Int) : String :=
  match m with
  | some mgr => mgr.getFamilyName i
  | none => ""

/-- The cache-hit test of resolve_typeface, verbatim from the source:
`cache.typeface && cache.weight == weight && cache.style == style &&
cache.family == family_name`, where weight has been clamped to [100, 900]
and the family normalised.  Note the cached typeface must be non-null. -/
def cacheHit (cache : TypefaceCache) (family : Option String) (weight style : Int) :
    Bool :=
  let w := clampInt weight 100 900
  let fam := familyNameOf family
  cache.typeface.isSome && (cache.weight == w) && (cache.style == style) &&
    (cache.family == fam)

/-- Slant selection: `(style == 1) ? kItalic_Slant : kUpright_Slant`. -/
def slantOfStyle (style : Int) : Slant :=
  if style == 1 then Slant.italic else Slant.upright

/-- Result of one resolve_typeface call: the returned typeface, the cache
as left behind, the external lookups performed, and whether the
"No typeface match" warning was logged. -/
structure ResolveOut where
  result : Option Typeface
  cache : TypefaceCache
  queries : List FontQuery
  warned : Bool
deriving DecidableEq, Repr

/-- resolve_typeface from skia_gl.cc lines 88-136 (identical in
skia_vk.cc lines 90-138), as a pure function of the environment and the
incoming cache state. -/
def resolve_typeface (env : FontEnv) (cache : TypefaceCache)
    (family : Option String) (weight0 style : Int) : ResolveOut :=
  let weight := clampInt weight0 100 900
  let family_name := familyNameOf family
  if cacheHit cache family weight0 style then
    ⟨cache.typeface, cache, [], false⟩
  else
    let slant := slantOfStyle style
    let font_style : FontStyle := ⟨weight, normalWidth, slant⟩
    let manager := env.manager
    let t1 := env.custom family
    let q1 : List FontQuery := [.custom family]
    let s2 := if t1.isNone && manager.isSome && !(family_name == "") then
        (mgrMatch manager (some family_name) font_style,
         q1 ++ [.matchFamilyStyle (some family_name) font_style])
      else (t1, q1)
    let s3 := if s2.1.isNone && manager.isSome then
        (mgrMatch manager none font_style,
         s2.2 ++ [.matchFamilyStyle none font_style])
      else s2
    let s4 := if s3.1.isNone && manager.isSome then
        (mgrMatch manager (some "sans-serif") font_style,
         s3.2 ++ [.matchFamilyStyle (some "sans-serif") font_style])
      else s3
    let s5 := if s4.1.isNone && manager.isSome then
        let family_count := mgrCount manager
        if family_count > 0 then
          let fallback_name := mgrFamilyName manager 0
          (mgrMatch manager (some fallback_name) font_style,
           s4.2 ++ [.countFamilies, .getFamilyName 0,
                    .matchFamilyStyle (some fallback_name) font_style])
        else (s4.1, s4.2 ++ [.countFamilies])
      else s4
    let s6 := if s5.1.isNone && manager.isSome then
        let fallback_style : FontStyle := ⟨400, normalWidth, slant⟩
        (mgrMatch manager (some "sans-serif") fallback_style,
         s5.2 ++ [.matchFamilyStyle (some "sans-serif") fallback_style])
      else s5
    let warned := s6.1.isNone
    ⟨s6.1, ⟨family_name, weight, style, s6.1⟩, s6.2, warned⟩

/-! ## GL wrapped-surface creation (skia_gl.cc lines 176-257) -/

/-- Surfaces are opaque handles; we model them as naturals. -/
abbrev Surface := Nat

/-- The GL color-format tokens the bridge passes to create_gl_surface.
When the GL headers lack GL_RGBA8 the source defines it as GL_RGBA, in
which case the first two tokens coincide at the C level; we keep them
distinct to record which line of the fallback chain fired. -/
inductive GLFormat
  | RGBA8
  | RGBA
  | BGRA8_EXT
  | RGB565
deriving DecidableEq, Repr

/-- The SkColorType values the bridge uses. -/
inductive SkColorType
  | kRGBA_8888
  | kBGRA_8888
  | kRGB_565
deriving DecidableEq, Repr

/-- One call to create_gl_surface: the format/color-type pair plus the
sample count, stencil depth and framebuffer id baked into the backend
render target (width/height are passed alongside). -/
structure GLAttempt where
  format : GLFormat
  colorType : SkColorType
  samples : Int
  stencil : Int
  framebuffer : Int
deriving DecidableEq, Repr

/-- Environment of drift_skia_surface_create_gl: the live GL state read
by glGetIntegerv, the glGetString results (none = null pointer), whether
GL_BGRA8_EXT was defined at compile time, and Skia's
SkSurfaces::WrapBackendRenderTarget as an oracle from the attempt
parameters to a surface or null. -/
structure GLEnv where
  framebuffer : Int
  samples : Int
  stencil : Int
  version : Option String
  renderer : Option String
  bgraCompiled : Bool
  wrapBackendRenderTarget : Int → Int → GLAttempt → Option Surface

/-- create_gl_surface (skia_gl.cc lines 176-203): builds the backend
render target from the parameters and asks Skia to wrap it (origin
kTopLeft, sRGB color space and surface props are fixed and folded into
the oracle). -/
def create_gl_surface (env : GLEnv) (width height : Int) (format : GLFormat)
    (color_type : SkColorType) (samples stencil framebuffer : Int) :
    Option Surface :=
  env.wrapBackendRenderTarget width height
    ⟨format, color_type, samples, stencil, framebuffer⟩

/-- One `if (!surface) surface = create_gl_surface(...)` step, also
recording the attempt when it is made. -/
def tryGLFormat (env : GLEnv) (width height : Int) (format : GLFormat)
    (color_type : SkColorType) (samples stencil framebuffer : Int)
    (acc : Option Surface × List GLAttempt) :
    Option Surface × List GLAttempt :=
  match acc with
  | (some s, attempts) => (some s, attempts)
  | (none, attempts) =>
      (create_gl_surface env width height format color_type samples stencil
        framebuffer,
       attempts ++ [⟨format, color_type, samples, stencil, framebuffer⟩])

/-- The four sequential format attempts of drift_skia_surface_create_gl
(RGBA8, then the legacy RGBA token, then BGRA8 when compiled in, then
RGB565), each guarded on the previous having failed; the source repeats
this block verbatim for the stencil-zero retry. -/
def glChain (env : GLEnv) (width height samples stencil framebuffer : Int)
    (acc : Option Surface × List GLAttempt) : Option Surface × List GLAttempt :=
  let a1 := tryGLFormat env width height .RGBA8 .kRGBA_8888 samples stencil
    framebuffer acc
  let a2 := tryGLFormat env width height .RGBA .kRGBA_8888 samples stencil
    framebuffer a1
  let a3 := if env.bgraCompiled then
      tryGLFormat env width height .BGRA8_EXT .kBGRA_8888 samples stencil
        framebuffer a2
    else a2
  tryGLFormat env width height .RGB565 .kRGB_565 samples stencil framebuffer a3

/-- The failure log line of drift_skia_surface_create_gl: framebuffer id,
sample count, stencil depth, GL version and renderer strings (null
strings logged as "unknown"). -/
structure GLFailLog where
  framebuffer : Int
  samples : Int
  stencil : Int
  version : String
  renderer : String
deriving DecidableEq, Repr

/-- Result of one drift_skia_surface_create_gl call: the surface (null on
failure), the create_gl_surface attempts in order, whether the three
glGetIntegerv reads of live GL state ran, and the error log if any. -/
structure GLCreateOut where
  surface : Option Surface
  attempts : List GLAttempt
  readGLState : Bool
  log : Option GLFailLog
deriving DecidableEq, Repr

/-- drift_skia_surface_create_gl (skia_gl.cc lines 205-257).  ctxNull
models `ctx == nullptr`. -/
def drift_skia_surface_create_gl (env : GLEnv) (ctxNull : Bool)
    (width height : Int) : GLCreateOut :=
  if ctxNull = true ∨ width ≤ 0 ∨ height ≤ 0 then
    ⟨none, [], false, none⟩
  else
    let framebuffer := env.framebuffer
    let samples := env.samples
    let stencil := env.stencil
    let a4 := glChain env width height samples stencil framebuffer (none, [])
    let a8 := if a4.1.isNone && !(stencil == 0) then
        glChain env width height samples 0 framebuffer a4
      else a4
    match a8.1 with
    | some s => ⟨some s, a8.2, true, none⟩
    | none =>
        ⟨none, a8.2, true,
         some ⟨framebuffer, samples, stencil,
               env.version.getD "unknown", env.renderer.getD "unknown"⟩⟩

/-! ## Offscreen surface creation (GL lines 275-287, Vulkan lines 336-348) -/

/-- SkAlphaType values used by the bridge. -/
inductive SkAlphaType
  | premul
deriving DecidableEq, Repr

/-- Color spaces used by the bridge. -/
inductive ColorSpaceKind
  | srgb
deriving DecidableEq, Repr

/-- The SkImageInfo built for offscreen surfaces. -/
structure SkImageInfoM where
  width : Int
  height : Int
  colorType : SkColorType
  alphaType : SkAlphaType
  colorSpace : ColorSpaceKind
deriving DecidableEq, Repr

/-- Environment of the offscreen creators: SkSurfaces::RenderTarget as an
oracle (budgeted kNo, sample count 0, kTopLeft origin and the surface
props are fixed at the call site and folded into it). -/
structure OffscreenEnv where
  renderTarget : SkImageInfoM → Option Surface

/-- Result of an offscreen creation call: the surface and the GPU
allocation calls issued (empty = no side effect). -/
structure OffscreenOut where
  surface : Option Surface
  calls : List SkImageInfoM
deriving DecidableEq, Repr

/-- drift_skia_surface_create_offscreen_gl (skia_gl.cc lines 275-287). -/
def drift_skia_surface_create_offscreen_gl (env : OffscreenEnv)
    (ctxNull : Bool) (width height : Int) : OffscreenOut :=
  if ctxNull = true ∨ width ≤ 0 ∨ height ≤ 0 then
    ⟨none, []⟩
  else
    let info : SkImageInfoM := ⟨width, height, .kRGBA_8888, .premul, .srgb⟩
    ⟨env.renderTarget info, [info]⟩

/-- drift_skia_surface_create_offscreen_vulkan (skia_vk.cc lines
336-348); textually the same body as the GL variant. -/
def drift_skia_surface_create_offscreen_vulkan (env : OffscreenEnv)
    (ctxNull : Bool) (width height : Int) : OffscreenOut :=
  if ctxNull = true ∨ width ≤ 0 ∨ height ≤ 0 then
    ⟨none, []⟩
  else
    let info : SkImageInfoM := ⟨width, height, .kRGBA_8888, .premul, .srgb⟩
    ⟨env.renderTarget info, [info]⟩

/-! ## Vulkan wrapped-surface creation (skia_vk.cc lines 267-317) -/

/-- Vulkan constants used by the wrap path. -/
def VK_IMAGE_TILING_OPTIMAL : Nat := 0

def VK_IMAGE_LAYOUT_UNDEFINED : Nat := 0

def VK_IMAGE_USAGE_TRANSFER_SRC_BIT : Nat := 1

def VK_IMAGE_USAGE_TRANSFER_DST_BIT : Nat := 2

def VK_IMAGE_USAGE_COLOR_ATTACHMENT_BIT : Nat := 16

def VK_QUEUE_FAMILY_IGNORED : Nat := 4294967295

/-- GrVkImageInfo as populated by drift_skia_surface_create_vulkan. -/
structure GrVkImageInfoM where
  fImage : Nat
  fImageTiling : Nat
  fImageLayout : Nat
  fFormat : Nat
  fImageUsageFlags : Nat
  fSampleCount : Nat
  fLevelCount : Nat
  fCurrentQueueFamily : Nat
deriving DecidableEq, Repr

/-- One SkSurfaces::WrapBackendRenderTarget call on the Vulkan path: the
render-target dimensions, the image description, and the fixed color
type / color space passed alongside (origin kTopLeft and the props are
fixed and folded into the oracle). -/
structure VkWrapCall where
  width : Int
  height : Int
  imageInfo : GrVkImageInfoM
  colorType : SkColorType
  colorSpace : ColorSpaceKind
deriving DecidableEq, Repr

/-- Environment of drift_skia_surface_create_vulkan: Skia's wrap call as
an oracle. -/
structure VkSurfaceEnv where
  wrapBackendRenderTarget : VkWrapCall → Option Surface

/-- Result of one drift_skia_surface_create_vulkan call: the surface, the
wrap calls issued, and the failure log (width, height, format) if any. -/
structure VkCreateOut where
  surface : Option Surface
  calls : List VkWrapCall
  log : Option (Int × Int × Nat)
deriving DecidableEq, Repr

/-- drift_skia_surface_create_vulkan (skia_vk.cc lines 267-317).
vk_image = 0 models a null image handle; vk_format is the raw token. -/
def drift_skia_surface_create_vulkan (env : VkSurfaceEnv) (ctxNull : Bool)
    (width height : Int) (vk_image vk_format : Nat) : VkCreateOut :=
  if ctxNull = true ∨ width ≤ 0 ∨ height ≤ 0 ∨ vk_image = 0 then
    ⟨none, [], none⟩
  else
    let imageInfo : GrVkImageInfoM :=
      ⟨vk_image, VK_IMAGE_TILING_OPTIMAL, VK_IMAGE_LAYOUT_UNDEFINED, vk_format,
       VK_IMAGE_USAGE_COLOR_ATTACHMENT_BIT ||| VK_IMAGE_USAGE_TRANSFER_SRC_BIT |||
         VK_IMAGE_USAGE_TRANSFER_DST_BIT,
       1, 1, VK_QUEUE_FAMILY_IGNORED⟩
    let call : VkWrapCall := ⟨width, height, imageInfo, .kRGBA_8888, .srgb⟩
    match env.wrapBackendRenderTarget call with
    | some s => ⟨some s, [call], none⟩
    | none => ⟨none, [call], some (width, height, vk_format)⟩

/-! ## Flush and purge (GL lines 267-273 and 306-313; Vulkan lines
319-327 and 350-356) -/

/-- Calls issued on the GrDirectContext, with the CPU-sync flag of
flushAndSubmit (GrSyncCpu::kYes = true; the GL variant uses the default
GrSyncCpu::kNo). -/
inductive CtxOp
  | resetContext
  | freeGpuResources
  | flushAndSubmit (syncCpu : Bool)
deriving DecidableEq, Repr

/-- drift_skia_surface_flush, GL variant (skia_gl.cc lines 267-273):
flushAndSubmit(surface) with the default GrSyncCpu::kNo. -/
def drift_skia_surface_flush_gl (ctxNull surfaceNull : Bool) : List CtxOp :=
  if ctxNull || surfaceNull then [] else [.flushAndSubmit false]

/-- drift_skia_surface_flush, Vulkan variant (skia_vk.cc lines 319-327):
flushAndSubmit(surface, GrSyncCpu::kYes). -/
def drift_skia_surface_flush_vk (ctxNull surfaceNull : Bool) : List CtxOp :=
  if ctxNull || surfaceNull then [] else [.flushAndSubmit true]

/-- drift_skia_context_purge_resources, GL variant (skia_gl.cc lines
306-313): resetContext() then freeGpuResources(). -/
def drift_skia_context_purge_resources_gl (ctxNull : Bool) : List CtxOp :=
  if ctxNull then [] else [.resetContext, .freeGpuResources]

/-- drift_skia_context_purge_resources, Vulkan variant (skia_vk.cc lines
350-356): freeGpuResources() only. -/
def drift_skia_context_purge_resources_vk (ctxNull : Bool) : List CtxOp :=
  if ctxNull then [] else [.freeGpuResources]

/-! ## The Vulkan proc-address resolver (skia_vk.cc lines 180-200) -/

/-- Vulkan handles (instances, devices) and function pointers are opaque;
none models VK_NULL_HANDLE / a null pointer. -/
abbrev VkHandle := Option Nat

/-- Environment captured by the getProc lambda: the supplied
vkGetInstanceProcAddr (non-null, it is checked before the lambda is
built) and the vkGetDeviceProcAddr pointer resolved through it at
context creation (possibly null). -/
structure VkProcEnv where
  vkGetInstanceProc : VkHandle → String → Option Nat
  vkGetDeviceProc : Option (VkHandle → String → Option Nat)

/-- The getProc lambda of drift_skia_context_create_vulkan, with
capturedInstance the vkInstance captured at context creation: try the
device-level resolver when dev is non-null and the resolver itself is
non-null, return its result if non-null; otherwise resolve at instance
level, substituting the captured instance when inst is null but dev is
not. -/
def makeGetProc (env : VkProcEnv) (capturedInstance : VkHandle)
    (name : String) (inst dev : VkHandle) : Option Nat :=
  let viaDevice : Option Nat :=
    match dev, env.vkGetDeviceProc with
    | some d, some getDev => getDev (some d) name
    | _, _ => none
  match viaDevice with
  | some fn => some fn
  | none =>
      let resolveInst := if inst = none ∧ dev ≠ none then capturedInstance else inst
      env.vkGetInstanceProc resolveInst name

/-! ## Spec-side comparison definitions -/

/-- First non-null result of an ordered list of lazily-tried candidates. -/
def firstSome : List (Option Typeface) → Option Typeface
  | [] => none
  | o :: rest =>
      match o with
      | some t => some t
      | none => firstSome rest

/-- The typeface resolution order as the spec words it (steps 3-8 of
section 4.3), for comparison with resolve_typeface: custom typeface,
then font-manager matches for the requested family (when non-empty), no
family constraint, "sans-serif", the first enumerated family, and
"sans-serif" at weight 400 keeping the slant; each tried only if the
previous yielded nothing. -/
def specResolutionOrder (env : FontEnv) (family : Option String)
    (weight style : Int) : Option Typeface :=
  let w := clampInt weight 100 900
  let fam := familyNameOf family
  let fs : FontStyle := ⟨w, normalWidth, slantOfStyle style⟩
  firstSome
    [ env.custom family
    , if fam == "" then none else mgrMatch env.manager (some fam) fs
    , mgrMatch env.manager none fs
    , mgrMatch env.manager (some "sans-serif") fs
    , if mgrCount env.manager > 0 then
        mgrMatch env.manager (some (mgrFamilyName env.manager 0)) fs
      else none
    , mgrMatch env.manager (some "sans-serif") ⟨400, normalWidth, slantOfStyle style⟩ ]

/-- The ordered GL color-format fallback list as the spec words it:
RGBA8, legacy RGBA, BGRA8 when compiled in, RGB565. -/
def glFormatList (bgraCompiled : Bool) : List (GLFormat × SkColorType) :=
  [(.RGBA8, .kRGBA_8888), (.RGBA, .kRGBA_8888)] ++
    (if bgraCompiled then [(.BGRA8_EXT, .kBGRA_8888)] else []) ++
    [(.RGB565, .kRGB_565)]

/-- One full pass over the format list at a given stencil depth. -/
def glPass (env : GLEnv) (stencil : Int) : List GLAttempt :=
  (glFormatList env.bgraCompiled).map
    (fun p => ⟨p.1, p.2, env.samples, stencil, env.framebuffer⟩)

/-- First successful result of an ordered list of surface attempts. -/
def findFirstSurface (f : GLAttempt → Option Surface) :
    List GLAttempt → Option Surface
  | [] => none
  | a :: rest =>
      match f a with
      | some s => some s
      | none => findFirstSurface f rest

/-- The complete attempt sequence the spec describes: the format list at
the read stencil depth, and — only when that entire pass fails and the
read stencil depth is non-zero — one more pass with stencil forced to
zero. -/
def glSpecSequence (env : GLEnv) (width height : Int) : List GLAttempt :=
  let first := glPass env env.stencil
  if (findFirstSurface (fun a => env.wrapBackendRenderTarget width height a)
        first).isNone
      ∧ env.stencil ≠ 0 then
    first ++ glPass env 0
  else
    first

/-- The surface the spec's fallback search returns: the first success in
the attempt sequence. -/
def glSpecResult (env : GLEnv) (width height : Int) : Option Surface :=
  findFirstSurface (fun a => env.wrapBackendRenderTarget width height a)
    (glSpecSequence env width height)

/-- The attempts actually performed by a lazily evaluated fallback
search: every failing attempt up to and including the first success. -/
def takeThroughSuccess (f : GLAttempt → Option Surface) :
    List GLAttempt → List GLAttempt
  | [] => []
  | a :: rest =>
      match f a with
      | some _ => [a]
      | none => a :: takeThroughSuccess f rest

/-! ## Concrete environments for witnesses and counterexamples -/

/-- A font environment with no custom typefaces and a manager that
matches nothing and enumerates no families. -/
def fontEnvBarren : FontEnv :=
  { custom := fun _ => none
  , manager := some
      { matchFamilyStyle := fun _ _ => none
      , countFamilies := 0
      , getFamilyName := fun _ => "" } }

/-- A font environment whose custom registry holds typeface 7 for family
"B" and whose manager matches typeface 3 for every query. -/
def fontEnvCustom : FontEnv :=
  { custom := fun f => if f == some "B" then some 7 else none
  , manager := some
      { matchFamilyStyle := fun _ _ => some 3
      , countFamilies := 2
      , getFamilyName := fun _ => "first" } }

/-- A GL environment: framebuffer 4, samples 0, stencil 8, where only the
RGB565 attempt at stencil 0 succeeds (with surface 11). -/
def glEnvStencilFallback : GLEnv :=
  { framebuffer := 4
  , samples := 0
  , stencil := 8
  , version := some "3.2"
  , renderer := none
  , bgraCompiled := true
  , wrapBackendRenderTarget := fun _ _ a =>
      if a.format == .RGB565 && a.stencil == 0 then some 11 else none }

/-- A Vulkan surface environment that wraps every call as surface 21. -/
def vkSurfEnvOk : VkSurfaceEnv :=
  { wrapBackendRenderTarget := fun _ => some 21 }

/-- An offscreen environment that allocates surface 31 for every request. -/
def offEnvOk : OffscreenEnv := ⟨fun _ => some 31⟩

/-- A proc environment: the instance-level resolver returns 1000 + the
handle value (0 for the null instance), the device-level resolver
resolves only the name "A" to 101. -/
def vkProcEnv1 : VkProcEnv :=
  { vkGetInstanceProc := fun i _ =>
      match i with
      | some k => some (1000 + k)
      | none => some 1000
  , vkGetDeviceProc := some (fun _ n => if n == "A" then some 101 else none) }

/-! ## Helper lemmas -/

theorem clamp100900_idem (v : Int) :
    clampInt (clampInt v 100 900) 100 900 = clampInt v 100 900 := by
  unfold clampInt
  split_ifs <;> omega

theorem findFirstSurface_append (f : GLAttempt → Option Surface)
    (l1 l2 : List GLAttempt) :
    findFirstSurface f (l1 ++ l2) =
      match findFirstSurface f l1 with
      | some s => some s
      | none => findFirstSurface f l2 := by
  induction l1 with
  | nil => simp [findFirstSurface]
  | cons a rest ih =>
    cases hfa : f a <;> simp [findFirstSurface, hfa, ih]

theorem takeThroughSuccess_of_none (f : GLAttempt → Option Surface)
    (l : List GLAttempt) (h : findFirstSurface f l = none) :
    takeThroughSuccess f l = l := by
  induction l with
  | nil => rfl
  | cons a rest ih =>
    cases hfa : f a with
    | some s => rw [findFirstSurface, hfa] at h; exact absurd h (by simp)
    | none =>
      rw [findFirstSurface, hfa] at h
      simp [takeThroughSuccess, hfa, ih h]

theorem takeThroughSuccess_append_of_none (f : GLAttempt → Option Surface)
    (l1 l2 : List GLAttempt) (h : findFirstSurface f l1 = none) :
    takeThroughSuccess f (l1 ++ l2) = l1 ++ takeThroughSuccess f l2 := by
  induction l1 with
  | nil => rfl
  | cons a rest ih =>
    cases hfa : f a with
    | some s => rw [findFirstSurface, hfa] at h; exact absurd h (by simp)
    | none =>
      rw [findFirstSurface, hfa] at h
      simp [takeThroughSuccess, hfa, ih h]

/-- The four-attempt chain, started on a failed accumulator, computes
the first success of the corresponding pass and appends every attempt up
to and including the first success. -/
theorem glChain_char (env : GLEnv) (width height stencil : Int)
    (done : List GLAttempt) :
    glChain env width height env.samples stencil env.framebuffer (none, done) =
      (findFirstSurface (fun a => env.wrapBackendRenderTarget width height a)
         (glPass env stencil),
       done ++ takeThroughSuccess
         (fun a => env.wrapBackendRenderTarget width height a)
         (glPass env stencil)) := by
  cases hbgra : env.bgraCompiled
  · cases hw1 : env.wrapBackendRenderTarget width height
        ⟨.RGBA8, .kRGBA_8888, env.samples, stencil, env.framebuffer⟩ <;>
      cases hw2 : env.wrapBackendRenderTarget width height
        ⟨.RGBA, .kRGBA_8888, env.samples, stencil, env.framebuffer⟩ <;>
      cases hw4 : env.wrapBackendRenderTarget width height
        ⟨.RGB565, .kRGB_565, env.samples, stencil, env.framebuffer⟩ <;>
      simp [glChain, glPass, glFormatList, hbgra, tryGLFormat, create_gl_surface,
        findFirstSurface, takeThroughSuccess, hw1, hw2, hw4]
  · cases hw1 : env.wrapBackendRenderTarget width height
        ⟨.RGBA8, .kRGBA_8888, env.samples, stencil, env.framebuffer⟩ <;>
      cases hw2 : env.wrapBackendRenderTarget width height
        ⟨.RGBA, .kRGBA_8888, env.samples, stencil, env.framebuffer⟩ <;>
      cases hw3 : env.wrapBackendRenderTarget width height
        ⟨.BGRA8_EXT, .kBGRA_8888, env.samples, stencil, env.framebuffer⟩ <;>
      cases hw4 : env.wrapBackendRenderTarget width height
        ⟨.RGB565, .kRGB_565, env.samples, stencil, env.framebuffer⟩ <;>
      simp [glChain, glPass, glFormatList, hbgra, tryGLFormat, create_gl_surface,
        findFirstSurface, takeThroughSuccess, hw1, hw2, hw3, hw4]

/-! ## Claim theorems -/

/-- C3 counterexample: on a live (non-null) context, the Vulkan variant of
drift_skia_context_purge_resources only frees GPU resources; it does not
reset cached context state, unlike the GL variant. -/
theorem purge_resources_vk_no_reset_cex :
    drift_skia_context_purge_resources_vk false = [CtxOp.freeGpuResources]
    ∧ CtxOp.resetContext ∉ drift_skia_context_purge_resources_vk false
    ∧ CtxOp.resetContext ∈ drift_skia_context_purge_resources_gl false := by
  decide

/-- C3 amended: on a non-null context the GL variant of purgeResources
resets cached context state and frees all GPU resource pools, while the
Vulkan variant only frees the GPU resource pools; on a null context both
variants are no-ops. -/
theorem purge_resources_behavior :
    drift_skia_context_purge_resources_gl false =
      [CtxOp.resetContext, CtxOp.freeGpuResources]
    ∧ drift_skia_context_purge_resources_vk false = [CtxOp.freeGpuResources]
    ∧ drift_skia_context_purge_resources_gl true = []
    ∧ drift_skia_context_purge_resources_vk true = [] := by
  decide

/-- C7: flush with a null context or a null surface is a no-op issuing no
GPU call in both backends; with both non-null, the GL variant submits
without CPU synchronization and the Vulkan variant submits requesting
CPU synchronization. -/
theorem surface_flush_contract :
    (∀ s : Bool, drift_skia_surface_flush_gl true s = []
      ∧ drift_skia_surface_flush_vk true s = [])
    ∧ (∀ c : Bool, drift_skia_surface_flush_gl c true = []
      ∧ drift_skia_surface_flush_vk c true = [])
    ∧ drift_skia_surface_flush_gl false false = [CtxOp.flushAndSubmit false]
    ∧ drift_skia_surface_flush_vk false false = [CtxOp.flushAndSubmit true] := by
  decide

/-- C8: typeface resolution behaves identically to resolution with the
weight clamped into [100, 900]; in particular weight 50 resolves exactly
as weight 100 and weight 950 exactly as weight 900, for every
environment, cache state, family and style. -/
theorem resolve_typeface_weight_clamped :
    (∀ (env : FontEnv) (cache : TypefaceCache) (family : Option String)
        (weight style : Int),
      resolve_typeface env cache family weight style =
        resolve_typeface env cache family (clampInt weight 100 900) style)
    ∧ (∀ (env : FontEnv) (cache : TypefaceCache) (family : Option String)
        (style : Int),
      resolve_typeface env cache family 50 style =
        resolve_typeface env cache family 100 style
      ∧ resolve_typeface env cache family 950 style =
        resolve_typeface env cache family 900 style) := by
  have key : ∀ (env : FontEnv) (cache : TypefaceCache) (family : Option String)
      (weight style : Int),
      resolve_typeface env cache family weight style =
        resolve_typeface env cache family (clampInt weight 100 900) style := by
    intro env cache family weight style
    unfold resolve_typeface cacheHit
    simp only [clamp100900_idem]
  refine ⟨key, fun env cache family style => ⟨?_, ?_⟩⟩
  · have h50 : clampInt 50 100 900 = 100 := by decide
    rw [key env cache family 50 style, h50]
  · have h950 : clampInt 950 100 900 = 900 := by decide
    rw [key env cache family 950 style, h950]

/-- C10: the style argument maps to the italic slant exactly when it
equals 1 (every other value, not only 0, is upright), yet the raw style
value is stored verbatim in the cache key: styles 0 and 2 share a slant
but occupy distinct cache keys. -/
theorem slant_mapping_and_raw_style_key :
    (∀ style : Int, slantOfStyle style = Slant.italic ↔ style = 1)
    ∧ (∀ (env : FontEnv) (cache : TypefaceCache) (family : Option String)
        (weight style : Int),
      (resolve_typeface env cache family weight style).cache.style = style)
    ∧ slantOfStyle 0 = Slant.upright ∧ slantOfStyle 2 = Slant.upright
    ∧ cacheHit (resolve_typeface fontEnvCustom cache0 (some "B") 400 0).cache
        (some "B") 400 0 = true
    ∧ cacheHit (resolve_typeface fontEnvCustom cache0 (some "B") 400 0).cache
        (some "B") 400 2 = false := by
  refine ⟨fun style => ?_, fun env cache family weight style => ?_,
    by decide, by decide, by decide, by decide⟩
  · by_cases h : style = 1
    · simp [slantOfStyle, h]
    · simp [slantOfStyle, h]
  · unfold resolve_typeface
    split
    next h =>
      unfold cacheHit at h
      simp only [Bool.and_eq_true, beq_iff_eq] at h
      exact h.1.2
    next h => rfl

/-- C1 counterexample: with no custom typefaces and a manager that
matches nothing, resolving ("X", 400, 0) fails and stores the key with
an absent typeface; a second resolve with the identical key nevertheless
performs the custom and font-manager lookups again (six external
queries), refuting "a cache hit is defined purely by key equality". -/
theorem typeface_failed_lookup_retried_cex :
    (resolve_typeface fontEnvBarren cache0 (some "X") 400 0).result = none
    ∧ (resolve_typeface fontEnvBarren cache0 (some "X") 400 0).cache =
        ⟨"X", 400, 0, none⟩
    ∧ (resolve_typeface fontEnvBarren
        (resolve_typeface fontEnvBarren cache0 (some "X") 400 0).cache
        (some "X") 400 0).queries =
        (resolve_typeface fontEnvBarren cache0 (some "X") 400 0).queries
    ∧ (resolve_typeface fontEnvBarren
        (resolve_typeface fontEnvBarren cache0 (some "X") 400 0).cache
        (some "X") 400 0).queries ≠ [] := by
  decide

/-- C1 amended: a cache hit requires key equality (family, clamped
weight, raw style) and a present (non-null) cached typeface; on such a
hit the cached typeface is returned with no custom or font-manager
lookup and the cache is unchanged, while a cache slot holding an absent
typeface never hits, so a previously-failed lookup is retried even with
the identical key. -/
theorem typeface_cache_hit_semantics (env : FontEnv) (cache : TypefaceCache)
    (family : Option String) (weight style : Int) :
    (cacheHit cache family weight style = true →
      resolve_typeface env cache family weight style =
        ⟨cache.typeface, cache, [], false⟩)
    ∧ (cache.typeface = none →
      (resolve_typeface env cache family weight style).queries ≠ []) := by
  constructor
  · intro h
    unfold resolve_typeface
    simp [h]
  · intro h
    have hmiss : cacheHit cache family weight style = false := by
      unfold cacheHit
      simp [h]
    unfold resolve_typeface
    simp only [hmiss, Bool.false_eq_true, if_false]
    split_ifs <;> simp

/-- C4: on a cache miss, typeface resolution returns exactly the first
non-null result of the spec's fixed chain — custom typeface, manager
match for the family (skipped when empty), match with no family
constraint, "sans-serif", the first enumerated family, "sans-serif" at
weight 400 keeping the slant — and when every step fails it logs a
warning and returns an absent typeface instead of failing hard. -/
theorem typeface_fallback_chain (env : FontEnv) (cache : TypefaceCache)
    (family : Option String) (weight style : Int)
    (h : cacheHit cache family weight style = false) :
    (resolve_typeface env cache family weight style).result =
      specResolutionOrder env family weight style
    ∧ ((resolve_typeface env cache family weight style).result = none →
        (resolve_typeface env cache family weight style).warned = true) := by
  constructor
  · unfold resolve_typeface specResolutionOrder
    simp only [h, Bool.false_eq_true, if_false]
    cases hc : env.custom family with
    | some t => simp [hc, firstSome]
    | none =>
      cases hm : env.manager with
      | none => by_cases hf : familyNameOf family == "" <;>
          simp [hc, hm, hf, firstSome, mgrMatch, mgrCount]
      | some mgr =>
        by_cases hf : familyNameOf family == "" <;>
          cases h2 : mgr.matchFamilyStyle (some (familyNameOf family))
            ⟨clampInt weight 100 900, normalWidth, slantOfStyle style⟩ <;>
          cases h3 : mgr.matchFamilyStyle none
            ⟨clampInt weight 100 900, normalWidth, slantOfStyle style⟩ <;>
          cases h4 : mgr.matchFamilyStyle (some "sans-serif")
            ⟨clampInt weight 100 900, normalWidth, slantOfStyle style⟩ <;>
          by_cases h5 : mgr.countFamilies > 0 <;>
          cases h6 : mgr.matchFamilyStyle (some (mgr.getFamilyName 0))
            ⟨clampInt weight 100 900, normalWidth, slantOfStyle style⟩ <;>
          cases h7 : mgr.matchFamilyStyle (some "sans-serif")
            ⟨400, normalWidth, slantOfStyle style⟩ <;>
          simp [hc, hf, h2, h3, h4, h5, h6, h7, firstSome, mgrMatch, mgrCount,
            mgrFamilyName]
  · intro h0
    have hw : (resolve_typeface env cache family weight style).warned =
        (resolve_typeface env cache family weight style).result.isNone := by
      unfold resolve_typeface
      simp only [h, Bool.false_eq_true, if_false]
    rw [hw, h0]
    rfl

/-- C4 witness: resolving ("Y", 400, 0) on a cache miss in the barren
environment follows the spec chain (yielding an absent typeface) and
warns, and in the custom environment family "B" yields the custom
typeface 7 ahead of the always-matching system manager. -/
theorem typeface_fallback_chain_witness :
    ((resolve_typeface fontEnvBarren cache0 (some "Y") 400 0).result =
      specResolutionOrder fontEnvBarren (some "Y") 400 0
    ∧ ((resolve_typeface fontEnvBarren cache0 (some "Y") 400 0).result = none →
        (resolve_typeface fontEnvBarren cache0 (some "Y") 400 0).warned = true))
    ∧ ((resolve_typeface fontEnvCustom cache0 (some "B") 400 0).result =
      specResolutionOrder fontEnvCustom (some "B") 400 0
    ∧ ((resolve_typeface fontEnvCustom cache0 (some "B") 400 0).result = none →
        (resolve_typeface fontEnvCustom cache0 (some "B") 400 0).warned = true))
    ∧ specResolutionOrder fontEnvCustom (some "B") 400 0 = some 7 :=
  ⟨typeface_fallback_chain fontEnvBarren cache0 (some "Y") 400 0 (by decide),
   typeface_fallback_chain fontEnvCustom cache0 (some "B") 400 0 (by decide),
   by decide⟩

/-- C5: the proc resolver built at Vulkan context creation prefers a
non-null device-level resolution when the device is non-null, otherwise
resolves at instance level with the supplied instance, substituting the
captured instance exactly when the supplied instance is null but the
device is not; with both handles null it resolves against the null
instance. -/
theorem getProc_resolution (env : VkProcEnv) (capturedInstance : VkHandle)
    (name : String) (inst dev : VkHandle) :
    (∀ (d : Nat) (getDev : VkHandle → String → Option Nat) (fn : Nat),
      dev = some d → env.vkGetDeviceProc = some getDev →
      getDev (some d) name = some fn →
      makeGetProc env capturedInstance name inst dev = some fn)
    ∧ (∀ i : Nat, inst = some i →
      (match dev, env.vkGetDeviceProc with
       | some d, some getDev => getDev (some d) name
       | _, _ => none) = none →
      makeGetProc env capturedInstance name inst dev =
        env.vkGetInstanceProc (some i) name)
    ∧ (∀ d : Nat, inst = none → dev = some d →
      (match env.vkGetDeviceProc with
       | some getDev => getDev (some d) name
       | none => none) = none →
      makeGetProc env capturedInstance name inst dev =
        env.vkGetInstanceProc capturedInstance name)
    ∧ (inst = none → dev = none →
      makeGetProc env capturedInstance name inst dev =
        env.vkGetInstanceProc none name) := by
  refine ⟨?_, ?_, ?_, ?_⟩
  · intro d getDev fn hd hres hfn
    subst hd
    unfold makeGetProc
    simp [hres, hfn]
  · intro i hi hnone
    subst hi
    unfold makeGetProc
    simp only [hnone]
    simp
  · intro d hi hd hnone
    subst hi; subst hd
    unfold makeGetProc
    cases hg : env.vkGetDeviceProc with
    | none => simp [hg]
    | some getDev =>
      rw [hg] at hnone
      have hnone2 : getDev (some d) name = none := hnone
      simp [hg, hnone2]
  · intro hi hd
    subst hi; subst hd
    unfold makeGetProc
    simp

/-- C5 witness: in the concrete proc environment, name "A" on device 9
resolves at device level to 101; a device miss with instance 3 resolves
at instance level to 1003; a device miss with a null instance resolves
against the captured instance 5 to 1005; and a global lookup with both
handles null resolves against the null instance to 1000. -/
theorem getProc_resolution_witness :
    makeGetProc vkProcEnv1 (some 5) "A" none (some 9) = some 101
    ∧ makeGetProc vkProcEnv1 (some 5) "B" (some 3) (some 9) = some 1003
    ∧ makeGetProc vkProcEnv1 (some 5) "B" none (some 9) = some 1005
    ∧ makeGetProc vkProcEnv1 (some 5) "B" none none = some 1000 :=
  ⟨(getProc_resolution vkProcEnv1 (some 5) "A" none (some 9)).1 9 _ 101 rfl rfl
      (by decide),
   ((getProc_resolution vkProcEnv1 (some 5) "B" (some 3) (some 9)).2.1 3 rfl
      (by decide)).trans (by decide),
   ((getProc_resolution vkProcEnv1 (some 5) "B" none (some 9)).2.2.1 9 rfl rfl
      (by decide)).trans (by decide),
   ((getProc_resolution vkProcEnv1 (some 5) "B" none none).2.2.2 rfl rfl).trans
      (by decide)⟩

/-- C6: every surface-creation operation, given a null context or a
non-positive dimension (or, for the Vulkan wrapped variant, a null image
handle), returns null immediately with no log, no GL state read and no
GPU call. -/
theorem surface_creation_preconditions (envG : GLEnv) (envO : OffscreenEnv)
    (envV : VkSurfaceEnv) (ctxNull : Bool) (width height : Int)
    (vk_image vk_format : Nat)
    (h : ctxNull = true ∨ width ≤ 0 ∨ height ≤ 0) :
    drift_skia_surface_create_gl envG ctxNull width height =
      ⟨none, [], false, none⟩
    ∧ drift_skia_surface_create_offscreen_gl envO ctxNull width height =
      ⟨none, []⟩
    ∧ drift_skia_surface_create_offscreen_vulkan envO ctxNull width height =
      ⟨none, []⟩
    ∧ drift_skia_surface_create_vulkan envV ctxNull width height vk_image
        vk_format = ⟨none, [], none⟩
    ∧ (∀ (env2 : VkSurfaceEnv) (c : Bool) (w2 h2 : Int) (fmt2 : Nat),
        drift_skia_surface_create_vulkan env2 c w2 h2 0 fmt2 =
          ⟨none, [], none⟩) := by
  refine ⟨?_, ?_, ?_, ?_, ?_⟩
  · unfold drift_skia_surface_create_gl
    rw [if_pos h]
  · unfold drift_skia_surface_create_offscreen_gl
    rw [if_pos h]
  · unfold drift_skia_surface_create_offscreen_vulkan
    rw [if_pos h]
  · unfold drift_skia_surface_create_vulkan
    rw [if_pos (by tauto)]
  · intro env2 c w2 h2 fmt2
    unfold drift_skia_surface_create_vulkan
    rw [if_pos (by tauto)]

/-- C6 witness: with a null context and otherwise valid arguments, all
four creation operations return the empty result, and a null Vulkan
image does too. -/
theorem surface_creation_preconditions_witness :
    drift_skia_surface_create_gl glEnvStencilFallback true 4 3 =
      ⟨none, [], false, none⟩
    ∧ drift_skia_surface_create_offscreen_gl offEnvOk true 4 3 = ⟨none, []⟩
    ∧ drift_skia_surface_create_offscreen_vulkan offEnvOk true 4 3 = ⟨none, []⟩
    ∧ drift_skia_surface_create_vulkan vkSurfEnvOk true 4 3 9 37 =
      ⟨none, [], none⟩
    ∧ (∀ (env2 : VkSurfaceEnv) (c : Bool) (w2 h2 : Int) (fmt2 : Nat),
        drift_skia_surface_create_vulkan env2 c w2 h2 0 fmt2 =
          ⟨none, [], none⟩) :=
  surface_creation_preconditions glEnvStencilFallback offEnvOk vkSurfEnvOk
    true 4 3 9 37 (Or.inl rfl)

/-- C9: with valid arguments, Vulkan wrapped-surface creation issues
exactly one wrap call, always with color type kRGBA_8888 and the sRGB
color space, while the supplied format token (and image handle) only
populate the backend image description. -/
theorem vulkan_wrap_always_rgba8888 (env : VkSurfaceEnv) (width height : Int)
    (vk_image vk_format : Nat) (h1 : 0 < width) (h2 : 0 < height)
    (h3 : vk_image ≠ 0) :
    ∃ call : VkWrapCall,
      (drift_skia_surface_create_vulkan env false width height vk_image
        vk_format).calls = [call]
      ∧ call.colorType = SkColorType.kRGBA_8888
      ∧ call.colorSpace = ColorSpaceKind.srgb
      ∧ call.imageInfo.fFormat = vk_format
      ∧ call.imageInfo.fImage = vk_image := by
  have hcond : ¬(false = true ∨ width ≤ 0 ∨ height ≤ 0 ∨ vk_image = 0) := by
    push_neg
    exact ⟨by simp, by omega, by omega, h3⟩
  unfold drift_skia_surface_create_vulkan
  rw [if_neg hcond]
  refine ⟨⟨width, height,
    ⟨vk_image, VK_IMAGE_TILING_OPTIMAL, VK_IMAGE_LAYOUT_UNDEFINED, vk_format,
     VK_IMAGE_USAGE_COLOR_ATTACHMENT_BIT ||| VK_IMAGE_USAGE_TRANSFER_SRC_BIT |||
       VK_IMAGE_USAGE_TRANSFER_DST_BIT,
     1, 1, VK_QUEUE_FAMILY_IGNORED⟩,
    .kRGBA_8888, .srgb⟩, ?_, rfl, rfl, rfl, rfl⟩
  cases hw : env.wrapBackendRenderTarget
      ⟨width, height,
       ⟨vk_image, VK_IMAGE_TILING_OPTIMAL, VK_IMAGE_LAYOUT_UNDEFINED, vk_format,
        VK_IMAGE_USAGE_COLOR_ATTACHMENT_BIT ||| VK_IMAGE_USAGE_TRANSFER_SRC_BIT |||
          VK_IMAGE_USAGE_TRANSFER_DST_BIT,
        1, 1, VK_QUEUE_FAMILY_IGNORED⟩,
       .kRGBA_8888, .srgb⟩ with
  | some s => simp [hw]
  | none => simp [hw]

/-- C9 witness: wrapping image 9 with format token 37 issues one call,
with color type kRGBA_8888, sRGB, and the token stored verbatim. -/
theorem vulkan_wrap_always_rgba8888_witness :
    ∃ call : VkWrapCall,
      (drift_skia_surface_create_vulkan vkSurfEnvOk false 4 3 9 37).calls =
        [call]
      ∧ call.colorType = SkColorType.kRGBA_8888
      ∧ call.colorSpace = ColorSpaceKind.srgb
      ∧ call.imageInfo.fFormat = 37
      ∧ call.imageInfo.fImage = 9 :=
  vulkan_wrap_always_rgba8888 vkSurfEnvOk 4 3 9 37 (by decide) (by decide)
    (by decide)

/-- C2: with a live context and positive dimensions, GL wrapped-surface
creation attempts the formats in the fixed order RGBA8, legacy RGBA,
BGRA8 (when compiled in), RGB565, each with the stencil depth read from
live GL state, returns the first success, retries the entire ordered
list exactly once with stencil forced to 0 when every format failed and
the read stencil was non-zero, and returns null with the diagnostic log
(framebuffer, samples, stencil, version, renderer) only after all
combinations fail. -/
theorem gl_surface_fallback (env : GLEnv) (ctxNull : Bool) (width height : Int)
    (h1 : ctxNull = false) (h2 : 0 < width) (h3 : 0 < height) :
    (drift_skia_surface_create_gl env ctxNull width height).surface =
      glSpecResult env width height
    ∧ (drift_skia_surface_create_gl env ctxNull width height).attempts =
      takeThroughSuccess (fun a => env.wrapBackendRenderTarget width height a)
        (glSpecSequence env width height)
    ∧ ((drift_skia_surface_create_gl env ctxNull width height).surface = none ↔
      (drift_skia_surface_create_gl env ctxNull width height).log =
        some ⟨env.framebuffer, env.samples, env.stencil,
              env.version.getD "unknown", env.renderer.getD "unknown"⟩)
    ∧ (drift_skia_surface_create_gl env ctxNull width height).readGLState
        = true := by
  subst h1
  have hcond : ¬(false = true ∨ width ≤ 0 ∨ height ≤ 0) := by
    push_neg
    exact ⟨by simp, by omega, by omega⟩
  unfold drift_skia_surface_create_gl
  rw [if_neg hcond]
  simp only [glChain_char, List.nil_append]
  cases hp1 : findFirstSurface
      (fun a => env.wrapBackendRenderTarget width height a)
      (glPass env env.stencil) with
  | some s =>
    simp [glSpecResult, glSpecSequence, hp1]
  | none =>
    by_cases hs : env.stencil = 0
    · rw [hs] at hp1
      simp [glSpecResult, glSpecSequence, hp1, hs]
    · have hsb : (env.stencil == 0) = false := by
        simp [hs]
      simp only [hp1, Option.isNone_none, hsb, Bool.not_false, Bool.and_self,
        if_true]
      simp only [glChain_char]
      cases hp2 : findFirstSurface
          (fun a => env.wrapBackendRenderTarget width height a)
          (glPass env 0) with
      | some s =>
        simp [glSpecResult, glSpecSequence, hp1, hs, hp2,
          findFirstSurface_append,
          takeThroughSuccess_append_of_none _ _ _ hp1,
          takeThroughSuccess_of_none _ _ hp1]
      | none =>
        simp [glSpecResult, glSpecSequence, hp1, hs, hp2,
          findFirstSurface_append,
          takeThroughSuccess_append_of_none _ _ _ hp1,
          takeThroughSuccess_of_none _ _ hp1]

/-- C2 witness: in the concrete environment (stencil 8, BGRA compiled
in) where only RGB565 at stencil 0 succeeds, creation at 4x3 follows
the spec sequence — all four formats at stencil 8, then all four at
stencil 0 — and returns the surface produced by the final attempt. -/
theorem gl_surface_fallback_witness :
    ((drift_skia_surface_create_gl glEnvStencilFallback false 4 3).surface =
      glSpecResult glEnvStencilFallback 4 3
    ∧ (drift_skia_surface_create_gl glEnvStencilFallback false 4 3).attempts =
      takeThroughSuccess
        (fun a => glEnvStencilFallback.wrapBackendRenderTarget 4 3 a)
        (glSpecSequence glEnvStencilFallback 4 3)
    ∧ ((drift_skia_surface_create_gl glEnvStencilFallback false 4 3).surface =
        none ↔
      (drift_skia_surface_create_gl glEnvStencilFallback false 4 3).log =
        some ⟨glEnvStencilFallback.framebuffer, glEnvStencilFallback.samples,
              glEnvStencilFallback.stencil,
              glEnvStencilFallback.version.getD "unknown",
              glEnvStencilFallback.renderer.getD "unknown"⟩)
    ∧ (drift_skia_surface_create_gl glEnvStencilFallback false 4 3).readGLState
        = true)
    ∧ (drift_skia_surface_create_gl glEnvStencilFallback false 4 3).surface =
        some 11
    ∧ (drift_skia_surface_create_gl glEnvStencilFallback false 4 3).attempts =
        glPass glEnvStencilFallback 8 ++ glPass glEnvStencilFallback 0 :=
  ⟨gl_surface_fallback glEnvStencilFallback false 4 3 rfl (by decide)
      (by decide),
   by decide, by decide⟩

end DriftSkia
